import Mathlib

/-! Verification of the maptoposter repository's specified behaviours,
via a shallow embedding of the relevant Python functions.  Python strings
are modelled through their character lists so that everything computes;
file systems and in-memory stores are modelled as partial maps from
paths/keys to values; Python floats are modelled as rationals. -/

namespace MapToPoster

/-! ## String primitives mirroring the Python built-ins used by the code -/

/-- Lexicographic comparison of character lists by code point, the ordering
Python uses to compare strings. -/
def charListLe : List Char → List Char → Bool
  | [], _ => true
  | _ :: _, [] => false
  | c :: cs, d :: ds =>
    if c.toNat < d.toNat then true
    else if c.toNat > d.toNat then false
    else charListLe cs ds

/-- The function `strLe s t` models Python `s <= t` on strings. -/
def strLe (s t : String) : Bool := charListLe s.data t.data

/-- Insertion of a string into a sorted list. -/
def insertStr (s : String) : List String → List String
  | [] => [s]
  | t :: ts => if strLe s t then s :: t :: ts else t :: insertStr s ts

/-- Insertion sort on strings, modelling Python `sorted()` on file names. -/
def sortStrings : List String → List String
  | [] => []
  | s :: ss => insertStr s (sortStrings ss)

/-- The function `strEndsWith s suf` models Python `s.endswith(suf)`. -/
def strEndsWith (s suf : String) : Bool := List.isSuffixOf suf.data s.data

/-- The function `strDropRight s n` models Python `s[:-n]` for `0 < n ≤ len s`. -/
def strDropRight (s : String) (n : Nat) : String :=
  ⟨s.data.take (s.data.length - n)⟩

/-- The function `pyReplaceChar s c r` models Python `s.replace(c, r)` for a single
character pattern and replacement (the only form the code uses). -/
def pyReplaceChar (s : String) (c r : Char) : String :=
  ⟨s.data.map (fun d => if d = c then r else d)⟩

/-- A file system (or any keyed store) is a partial map from path to value. -/
def FS (V : Type) := String → Option V

/-! ## Theme discovery (`get_available_themes`, three near-identical copies)

A themes directory state is `none` when the directory does not exist and
`some files` when it exists with the given (unsorted) listing. -/

/-- The directory scan shared by all copies: keep the sorted `.json` files
and strip the extension, exactly as the Python loop does. -/
def scanThemeDir (files : List String) : List String :=
  ((sortStrings files).filter (fun file => strEndsWith file ".json")).map
    (fun file => strDropRight file 5)

namespace CreateMapPoster

/-- Function `get_available_themes` from `create_map_poster.py`: creates the missing
directory and returns `[]`, otherwise lists sorted `.json` names. -/
def get_available_themes (themesDir : Option (List String)) : List String :=
  match themesDir with
  | none => []
  | some files => scanThemeDir files

end CreateMapPoster

namespace Enhanced

/-- Function `get_available_themes` from `create_map_poster_enhanced.py`
(line-for-line the same as the original script's copy). -/
def get_available_themes (themesDir : Option (List String)) : List String :=
  match themesDir with
  | none => []
  | some files => scanThemeDir files

end Enhanced

namespace Studio

/-- Function `get_available_themes` from `MapPosterStudio/poster_engine/themes.py`:
falls back to `["feature_based"]` when the directory is missing or the
scan finds no themes. -/
def get_available_themes (themesDir : Option (List String)) : List String :=
  match themesDir with
  | none => ["feature_based"]
  | some files =>
    let themes := scanThemeDir files
    if themes = [] then ["feature_based"] else themes

end Studio

/-! ## Theme loading (`load_theme` from `create_map_poster.py`) -/

/-- A theme is a JSON object, modelled as an association list from key to
colour/string value. -/
abbrev ThemeDict := List (String × String)

/-- The embedded default `feature_based` theme returned by `load_theme`
when the requested theme file is missing. -/
def default_feature_based_theme : ThemeDict :=
  [("name", "Feature-Based Shading"),
   ("bg", "#FFFFFF"),
   ("text", "#000000"),
   ("gradient_color", "#FFFFFF"),
   ("water", "#C0C0C0"),
   ("parks", "#F0F0F0"),
   ("road_motorway", "#0A0A0A"),
   ("road_primary", "#1A1A1A"),
   ("road_secondary", "#2A2A2A"),
   ("road_tertiary", "#3A3A3A"),
   ("road_residential", "#4A4A4A"),
   ("road_default", "#3A3A3A")]

/-- Path of a theme's JSON file: `os.path.join(THEMES_DIR, f"{name}.json")`. -/
def theme_file_path (theme_name : String) : String :=
  "themes/" ++ theme_name ++ ".json"

/-- Function `load_theme` from `create_map_poster.py`.  `fs` maps a path to the
parsed content of the JSON file stored there, when it exists. -/
def load_theme (fs : FS ThemeDict) (theme_name : String) : ThemeDict :=
  match fs (theme_file_path theme_name) with
  | none => default_feature_based_theme
  | some theme => theme

/-- The theme keys the downstream rendering code looks up. -/
def required_theme_keys : List String :=
  ["bg", "text", "gradient_color", "water", "parks", "road_motorway",
   "road_primary", "road_secondary", "road_tertiary", "road_residential",
   "road_default"]

/-! ## Road colouring (`get_edge_colors_by_type` from `create_map_poster.py`) -/

/-- The value of an edge's `highway` attribute: OSM stores either a single
string or a list of strings. -/
inductive HighwayAttr where
  | tag : String → HighwayAttr
  | tags : List String → HighwayAttr
deriving DecidableEq, Repr

/-- A street-graph edge, keeping only the attribute the colouring reads.
`highway = none` models an edge whose data lacks the `highway` key. -/
structure Edge where
  highway : Option HighwayAttr
deriving DecidableEq, Repr

/-- The theme colours consumed by the rendering helpers. -/
structure Theme where
  road_motorway : String
  road_primary : String
  road_secondary : String
  road_tertiary : String
  road_residential : String
  road_default : String
deriving DecidableEq, Repr

/-- The normalisation at the top of the loop body:
`data.get('highway', 'unclassified')`, then take the first element of a
list (or `'unclassified'` when the list is empty). -/
def normalizeHighway : Option HighwayAttr → String
  | none => "unclassified"
  | some (.tag s) => s
  | some (.tags []) => "unclassified"
  | some (.tags (s :: _)) => s

/-- The `if/elif` colour dispatch of `get_edge_colors_by_type`'s loop body. -/
def edgeColor (theme : Theme) (e : Edge) : String :=
  let highway := normalizeHighway e.highway
  if highway = "motorway" ∨ highway = "motorway_link" then
    theme.road_motorway
  else if highway = "trunk" ∨ highway = "trunk_link" ∨ highway = "primary" ∨
      highway = "primary_link" then
    theme.road_primary
  else if highway = "secondary" ∨ highway = "secondary_link" then
    theme.road_secondary
  else if highway = "tertiary" ∨ highway = "tertiary_link" then
    theme.road_tertiary
  else if highway = "residential" ∨ highway = "living_street" ∨
      highway = "unclassified" then
    theme.road_residential
  else
    theme.road_default

/-- Function `get_edge_colors_by_type`: one colour appended per edge, in the graph's
edge-iteration order. -/
def get_edge_colors_by_type (theme : Theme) : List Edge → List String
  | [] => []
  | e :: es => edgeColor theme e :: get_edge_colors_by_type theme es

/-! ## Geocoding (`get_coordinates` from `create_map_poster.py`) -/

/-- A geocoder hit, as returned by the third-party client.  The coordinate
type is abstract: the code only forwards the values. -/
structure Location (α : Type) where
  address : String
  latitude : α
  longitude : α
deriving DecidableEq, Repr

/-- Function `get_coordinates city country`: queries the third-party geocoder with
`f"{city}, {country}"`; returns the hit's (latitude, longitude) or raises
`ValueError` (modelled as `Except.error`) when no location is found. -/
def get_coordinates {α : Type} (geocode : String → Option (Location α))
    (city country : String) : Except String (α × α) :=
  match geocode (city ++ ", " ++ country) with
  | some location => .ok (location.latitude, location.longitude)
  | none => .error ("Could not find coordinates for " ++ city ++ ", " ++ country)

/-! ## The city-mode pipeline (`create_poster` and `__main__`) -/

/-- The externally visible steps of a poster run. -/
inductive PipelineStep where
  | geocode
  | fetchStreets
  | fetchWater
  | fetchParks
  | renderLayers
  | typography
  | save
deriving DecidableEq, Repr

/-- The straight-line body of `create_poster` (city mode, no KML data):
fetch the street network, water, and parks; render the layers; draw the
typography; save the figure. -/
def create_poster_steps : List PipelineStep :=
  [.fetchStreets, .fetchWater, .fetchParks, .renderLayers, .typography, .save]

/-- The city-mode branch of `__main__`: `get_coordinates` runs first and a
failed geocode aborts the run before `create_poster` starts; on success
`create_poster` performs its steps in order. -/
def city_mode_run {α : Type} (geocode : String → Option (Location α))
    (city country : String) : Except String (List PipelineStep) :=
  match get_coordinates geocode city country with
  | .error e => .error e
  | .ok _ => .ok (.geocode :: create_poster_steps)

/-! ## The disk-backed pickle cache of `web_ui.py`

`md5hex` abstracts the `hashlib.md5(...).hexdigest()` primitive; the cache
directory is a partial map from file name to the unpickled stored value
(`pickle.dump`/`pickle.load` round-trip picklable values). -/

namespace WebUI

/-- Function `cache_file` from `web_ui.py`: md5 hex digest of the key plus `.pkl`. -/
def cache_file (md5hex : String → String) (key : String) : String :=
  md5hex key ++ ".pkl"

/-- Function `cache_get` from `web_ui.py`: read the pickle file when it exists,
otherwise return `None`. -/
def cache_get {V : Type} (md5hex : String → String) (fs : FS V)
    (name : String) : Option V :=
  fs (cache_file md5hex name)

/-- Function `cache_set` from `web_ui.py`: write the pickled object at the key's
cache file (a successful write; the code swallows write errors). -/
def cache_set {V : Type} (md5hex : String → String) (fs : FS V)
    (name : String) (obj : V) : FS V :=
  fun p => if p = cache_file md5hex name then some obj else fs p

/-- One cache call: a read or a write. -/
inductive CacheOp (V : Type) where
  | get : String → CacheOp V
  | set : String → V → CacheOp V

/-- Effect of one cache call on the cache directory (`cache_get` never
writes). -/
def runCacheOp {V : Type} (md5hex : String → String) (fs : FS V) :
    CacheOp V → FS V
  | .get _ => fs
  | .set k v => cache_set md5hex fs k v

/-- Effect of a call sequence on the cache directory. -/
def runCacheOps {V : Type} (md5hex : String → String) (fs : FS V) :
    List (CacheOp V) → FS V
  | [] => fs
  | op :: ops => runCacheOps md5hex (runCacheOp md5hex fs op) ops

end WebUI

/-! ## The disk-backed pickle cache of `create_map_poster_enhanced.py` -/

namespace Enhanced

/-- Function `_cache_path` from `create_map_poster_enhanced.py`:
`safe = key.replace(os.sep, "_")` (with `os.sep = '/'`), then
`os.path.join(".cache", f"{safe}.pkl")`. -/
def cache_path (key : String) : String :=
  ".cache/" ++ pyReplaceChar key '/' '_' ++ ".pkl"

/-- Function `cache_get` from `create_map_poster_enhanced.py` (successful read
path: missing file gives `None`, an existing file gives its content). -/
def cache_get {V : Type} (fs : FS V) (key : String) : Option V :=
  fs (cache_path key)

/-- Function `cache_set` from `create_map_poster_enhanced.py` (successful write at
the key's cache path). -/
def cache_set {V : Type} (fs : FS V) (key : String) (value : V) : FS V :=
  fun p => if p = cache_path key then some value else fs p

end Enhanced

/-! ## The `ProgressStore` and `/api/generate` of `web_ui.py`

Wall-clock times (`time.time()`) are rationals; a store maps a job id to
its entry (event queue plus last-update time). -/

namespace WebUI

/-- One store entry: the job's progress queue and its `updated` stamp. -/
structure PSEntry (P : Type) where
  queue : List P
  updated : ℚ
deriving DecidableEq

/-- The `ProgressStore._data` dictionary. -/
def ProgressStoreState (P : Type) := String → Option (PSEntry P)

/-- Default `ttl_seconds` of `ProgressStore.__init__`. -/
def default_ttl_seconds : ℚ := 900

/-- Method `ProgressStore.create`: install a fresh empty queue for the job. -/
def ps_create {P : Type} (store : ProgressStoreState P) (now : ℚ)
    (job_id : String) : ProgressStoreState P :=
  fun id => if id = job_id then some ⟨[], now⟩ else store id

/-- Method `ProgressStore.put`: enqueue onto the job's queue and refresh its
stamp; a missing job id leaves the store untouched. -/
def ps_put {P : Type} (store : ProgressStoreState P) (now : ℚ)
    (job_id : String) (payload : P) : ProgressStoreState P :=
  match store job_id with
  | none => store
  | some entry =>
    fun id =>
      if id = job_id then some ⟨entry.queue ++ [payload], now⟩ else store id

/-- Method `ProgressStore.cleanup`: drop every entry whose stamp is more than
`ttl` seconds old. -/
def ps_cleanup {P : Type} (ttl now : ℚ) (store : ProgressStoreState P) :
    ProgressStoreState P :=
  fun id =>
    match store id with
    | none => none
    | some entry => if now - entry.updated > ttl then none else some entry

/-- The request body of `/api/generate` after JSON decoding.  An empty
`city` models a missing/falsy city; `none` in `lat`/`lon`/`distance`
models a `float()` conversion failure (a missing distance already
defaulted to `10000` upstream of the conversion). -/
structure GenerateRequest where
  city : String
  lat : Option ℚ
  lon : Option ℚ
  distance : Option ℚ
  theme : String

/-- Constant `MAX_DISTANCE_METERS` from `web_ui.py`. -/
def MAX_DISTANCE_METERS : ℚ := 50000

/-- Check `THEME_NAME_PATTERN.match`: the regex `^[A-Za-z0-9_-]+$`. -/
def theme_name_pattern_ok (s : String) : Bool :=
  !s.data.isEmpty &&
    s.data.all (fun c => c.isAlpha || c.isDigit || c == '_' || c == '-')

/-- Server state touched by `generate`: the progress store and the worker
threads spawned so far (by job id). -/
structure WebServerState (P : Type) where
  store : ProgressStoreState P
  threads : List String

/-- HTTP outcome of `generate`: a 400 with an error message, or a 200
carrying the new job id. -/
inductive GenerateResult where
  | badRequest : String → GenerateResult
  | accepted : String → GenerateResult
deriving DecidableEq, Repr

/-- The `/api/generate` handler of `web_ui.py`: the validation chain, then
`progress_store.create(job_id)` and exactly one `threading.Thread` start.
`job_id` stands for the fresh `uuid.uuid4()` and `now` for the clock. -/
def generate {P : Type} (req : GenerateRequest) (job_id : String) (now : ℚ)
    (st : WebServerState P) : GenerateResult × WebServerState P :=
  if req.city = "" then (.badRequest "City name is required", st)
  else
    match req.lat, req.lon with
    | some lat, some lon =>
      if ¬((-90 ≤ lat ∧ lat ≤ 90) ∧ (-180 ≤ lon ∧ lon ≤ 180)) then
        (.badRequest "Coordinates out of range", st)
      else
        match req.distance with
        | none => (.badRequest "Invalid distance", st)
        | some d =>
          let _distance_val := max 1000 (min d MAX_DISTANCE_METERS)
          if theme_name_pattern_ok req.theme then
            (.accepted job_id,
             ⟨ps_create st.store now job_id, st.threads ++ [job_id]⟩)
          else (.badRequest "Invalid theme name", st)
    | _, _ => (.badRequest "Invalid coordinates", st)

end WebUI

/-! ## `POST /api/generate` of `backend/app.py` -/

namespace Backend

/-- The `PosterRequest` pydantic model. -/
structure PosterRequest where
  city : String
  country : String
  theme : String
  distance : Int
deriving DecidableEq, Repr

/-- One entry of the in-memory `jobs` dictionary (the request payload is
not needed by the claims). -/
structure Job where
  status : String
  message : String
  progress : Int
deriving DecidableEq, Repr

/-- The `jobs` dictionary. -/
def Jobs := String → Option Job

/-- An `HTTPException`. -/
structure HTTPError where
  status_code : Int
  detail : String
deriving DecidableEq, Repr

/-- The `JobStatus` response model (fields used by the claims). -/
structure JobStatus where
  job_id : String
  status : String
  message : String
  progress : Int
deriving DecidableEq, Repr

/-- The `POST /api/generate` handler of `backend/app.py`: reject unknown
themes and out-of-range distances with 400 before touching `jobs`;
otherwise insert one queued job.  `job_id` stands for the fresh
`uuid.uuid4()`. -/
def generate_poster (req : PosterRequest) (available_themes : List String)
    (jobs : Jobs) (job_id : String) : Except HTTPError (Jobs × JobStatus) :=
  if req.theme ∉ available_themes then
    .error ⟨400, "Theme not found"⟩
  else if req.distance < 1000 ∨ req.distance > 50000 then
    .error ⟨400, "Distance must be between 1000 and 50000 meters"⟩
  else
    .ok (fun id =>
           if id = job_id then
             some ⟨"queued", "Job queued for processing", 0⟩
           else jobs id,
         ⟨job_id, "queued", "Job queued for processing", 0⟩)

end Backend

/-! ## Helper lemmas -/

theorem mem_insertStr {a s : String} {l : List String} :
    a ∈ insertStr s l ↔ a = s ∨ a ∈ l := by
  induction l with
  | nil => simp [insertStr]
  | cons t ts ih =>
    simp only [insertStr]
    split
    · simp
    · simp only [List.mem_cons, ih]
      tauto

theorem mem_sortStrings {a : String} {l : List String} :
    a ∈ sortStrings l ↔ a ∈ l := by
  induction l with
  | nil => simp [sortStrings]
  | cons s ss ih => simp [sortStrings, mem_insertStr, ih]

theorem scanThemeDir_ne_nil {files : List String}
    (h : ∃ f ∈ files, strEndsWith f ".json" = true) :
    scanThemeDir files ≠ [] := by
  obtain ⟨f, hf, hjson⟩ := h
  intro hnil
  unfold scanThemeDir at hnil
  rw [List.map_eq_nil_iff] at hnil
  have hmem : f ∈ (sortStrings files).filter (fun file => strEndsWith file ".json") :=
    List.mem_filter.mpr ⟨mem_sortStrings.mpr hf, hjson⟩
  rw [hnil] at hmem
  exact absurd hmem (List.not_mem_nil f)

/-! ## Claim theorems -/

/-- C3 (amended): the two script copies of `get_available_themes` agree on
every directory state, and the studio copy agrees with them on every
directory that contains at least one `.json` file; on a missing directory
the script copies return `[]` while the studio copy returns
`["feature_based"]`. -/
theorem C3_theme_discovery_agreement (d : Option (List String))
    (files : List String)
    (hjson : ∃ f ∈ files, strEndsWith f ".json" = true) :
    CreateMapPoster.get_available_themes d = Enhanced.get_available_themes d ∧
    Studio.get_available_themes (some files) =
      CreateMapPoster.get_available_themes (some files) ∧
    CreateMapPoster.get_available_themes none = [] ∧
    Studio.get_available_themes none = ["feature_based"] := by
  refine ⟨rfl, ?_, rfl, rfl⟩
  simp [Studio.get_available_themes, CreateMapPoster.get_available_themes,
    scanThemeDir_ne_nil hjson]

/-- Witness for C3: the amended statement at a one-file directory. -/
theorem C3_theme_discovery_agreement_witness :
    (∃ f ∈ ["noir.json"], strEndsWith f ".json" = true) ∧
    (CreateMapPoster.get_available_themes (some ["noir.json"]) =
       Enhanced.get_available_themes (some ["noir.json"]) ∧
     Studio.get_available_themes (some ["noir.json"]) =
       CreateMapPoster.get_available_themes (some ["noir.json"]) ∧
     CreateMapPoster.get_available_themes none = [] ∧
     Studio.get_available_themes none = ["feature_based"]) :=
  ⟨by decide,
   C3_theme_discovery_agreement (some ["noir.json"]) ["noir.json"] (by decide)⟩

/-- Counterexample for C3 as stated: on an existing but empty themes
directory the studio copy disagrees with the script copies. -/
theorem C3_counterexample :
    Studio.get_available_themes (some []) ≠
      CreateMapPoster.get_available_themes (some []) := by decide

/-- C10: `load_theme` on a missing theme file returns the embedded default
`feature_based` theme, which carries every key the rendering code looks
up. -/
theorem C10_load_theme_missing_file_default (fs : FS ThemeDict)
    (theme_name : String)
    (hmissing : fs (theme_file_path theme_name) = none) :
    load_theme fs theme_name = default_feature_based_theme ∧
    ∀ k ∈ required_theme_keys,
      (List.lookup k (load_theme fs theme_name)).isSome = true := by
  have h1 : load_theme fs theme_name = default_feature_based_theme := by
    simp [load_theme, hmissing]
  refine ⟨h1, ?_⟩
  simp only [h1]
  decide

/-- Witness for C10: a file system with no theme files at all. -/
theorem C10_load_theme_missing_file_default_witness :
    ((fun _ => none : FS ThemeDict) (theme_file_path "missing_theme") = none) ∧
    (load_theme (fun _ => none) "missing_theme" = default_feature_based_theme ∧
     ∀ k ∈ required_theme_keys,
       (List.lookup k (load_theme (fun _ => none) "missing_theme")).isSome = true) :=
  ⟨rfl, C10_load_theme_missing_file_default (fun _ => none) "missing_theme" rfl⟩

/-- Helper fact: `edgeColor` always picks one of the six theme road colours. -/
theorem edgeColor_mem_roads (theme : Theme) (e : Edge) :
    edgeColor theme e ∈
      [theme.road_motorway, theme.road_primary, theme.road_secondary,
       theme.road_tertiary, theme.road_residential, theme.road_default] := by
  unfold edgeColor
  simp only []
  split_ifs <;> simp

/-- C6: `get_edge_colors_by_type` returns one colour per edge in edge
order; every colour is one of the six theme road colours; the colour of an
edge depends only on its normalised highway tag, where a list tag takes
its first element and a missing tag defaults to `"unclassified"`. -/
theorem C6_edge_colors_one_per_edge (theme : Theme) (G : List Edge) :
    (get_edge_colors_by_type theme G).length = G.length ∧
    get_edge_colors_by_type theme G = G.map (edgeColor theme) ∧
    (∀ c ∈ get_edge_colors_by_type theme G,
      c ∈ [theme.road_motorway, theme.road_primary, theme.road_secondary,
           theme.road_tertiary, theme.road_residential, theme.road_default]) ∧
    (∀ e : Edge,
      edgeColor theme e = edgeColor theme ⟨some (.tag (normalizeHighway e.highway))⟩) ∧
    normalizeHighway none = "unclassified" ∧
    normalizeHighway (some (.tags [])) = "unclassified" ∧
    (∀ s rest, normalizeHighway (some (.tags (s :: rest))) = s) := by
  have hmap : get_edge_colors_by_type theme G = G.map (edgeColor theme) := by
    induction G with
    | nil => rfl
    | cons e es ih => simp [get_edge_colors_by_type, ih]
  refine ⟨by rw [hmap]; simp, hmap, ?_, fun e => rfl, rfl, rfl, fun s rest => rfl⟩
  intro c hc
  rw [hmap] at hc
  obtain ⟨e, _, rfl⟩ := List.mem_map.mp hc
  exact edgeColor_mem_roads theme e

/-- C7: `get_coordinates` forwards the geocoder's (latitude, longitude)
on a hit and raises `ValueError` exactly when the geocoder finds no
location for the combined query. -/
theorem C7_get_coordinates_delegation {α : Type}
    (geocode : String → Option (Location α)) (city country : String) :
    (∀ loc, geocode (city ++ ", " ++ country) = some loc →
      get_coordinates geocode city country = .ok (loc.latitude, loc.longitude)) ∧
    ((∃ msg, get_coordinates geocode city country = .error msg) ↔
      geocode (city ++ ", " ++ country) = none) := by
  cases h : geocode (city ++ ", " ++ country) <;>
    simp [get_coordinates, h]

/-- C1: every successful city-mode run performs geocoding first, then the
three fetches, then rendering, then typography, and saves last. -/
theorem C1_city_mode_pipeline_order {α : Type}
    (geocode : String → Option (Location α)) (city country : String)
    (trace : List PipelineStep)
    (hrun : city_mode_run geocode city country = .ok trace) :
    trace = [.geocode, .fetchStreets, .fetchWater, .fetchParks,
             .renderLayers, .typography, .save] ∧
    trace.getLast? = some .save ∧
    trace.count .save = 1 ∧
    ∀ i j : Fin trace.length,
      trace.get i = .save → trace.get j ≠ .save → (j : Nat) < (i : Nat) := by
  have htrace : trace = [.geocode, .fetchStreets, .fetchWater, .fetchParks,
      .renderLayers, .typography, .save] := by
    cases h : geocode (city ++ ", " ++ country) <;>
      simp [city_mode_run, get_coordinates, h, create_poster_steps] at hrun
    exact hrun.symm
  subst htrace
  refine ⟨rfl, rfl, rfl, ?_⟩
  decide

/-- Witness for C1: a geocoder that resolves the query. -/
theorem C1_city_mode_pipeline_order_witness :
    (city_mode_run (α := Int) (fun _ => some ⟨"Paris, France", 48, 2⟩)
       "Paris" "France" =
       .ok [.geocode, .fetchStreets, .fetchWater, .fetchParks,
            .renderLayers, .typography, .save]) ∧
    ([PipelineStep.geocode, .fetchStreets, .fetchWater, .fetchParks,
      .renderLayers, .typography, .save] =
       [.geocode, .fetchStreets, .fetchWater, .fetchParks,
        .renderLayers, .typography, .save] ∧
     List.getLast? [PipelineStep.geocode, .fetchStreets, .fetchWater,
       .fetchParks, .renderLayers, .typography, .save] = some .save ∧
     List.count PipelineStep.save [.geocode, .fetchStreets, .fetchWater,
       .fetchParks, .renderLayers, .typography, .save] = 1 ∧
     ∀ i j : Fin ([PipelineStep.geocode, .fetchStreets, .fetchWater,
         .fetchParks, .renderLayers, .typography, .save]).length,
       List.get [PipelineStep.geocode, .fetchStreets, .fetchWater,
         .fetchParks, .renderLayers, .typography, .save] i = .save →
       List.get [PipelineStep.geocode, .fetchStreets, .fetchWater,
         .fetchParks, .renderLayers, .typography, .save] j ≠ .save →
       (j : Nat) < (i : Nat)) :=
  ⟨rfl,
   C1_city_mode_pipeline_order (fun _ => some ⟨"Paris, France", 48, 2⟩)
     "Paris" "France" _ rfl⟩

/-- C2: the `web_ui.py` cache names files by the md5 hex digest of the key
plus `.pkl`, a set followed by a get on the same key returns the stored
value, and a get with no cache file present returns `None`. -/
theorem C2_web_cache_roundtrip {V : Type} (md5hex : String → String)
    (fs : FS V) (k : String) (v : V) :
    WebUI.cache_file md5hex k = md5hex k ++ ".pkl" ∧
    WebUI.cache_get md5hex (WebUI.cache_set md5hex fs k v) k = some v ∧
    (fs (WebUI.cache_file md5hex k) = none →
      WebUI.cache_get md5hex fs k = none) := by
  refine ⟨rfl, ?_, fun h => h⟩
  simp [WebUI.cache_get, WebUI.cache_set]

/-- Witness for C2 at a concrete key/value. -/
theorem C2_web_cache_roundtrip_witness :
    WebUI.cache_file id "streets" = id "streets" ++ ".pkl" ∧
    WebUI.cache_get id (WebUI.cache_set id (fun _ => (none : Option Nat))
      "streets" 7) "streets" = some 7 ∧
    ((fun _ => (none : Option Nat)) (WebUI.cache_file id "streets") = none →
      WebUI.cache_get id (fun _ => (none : Option Nat)) "streets" = none) :=
  C2_web_cache_roundtrip id (fun _ => none) "streets" 7

/-- Helper fact: `cache_set`/`cache_get` sequences never make an existing cache entry
disappear. -/
theorem runCacheOps_isSome_mono {V : Type} (md5hex : String → String)
    (ops : List (WebUI.CacheOp V)) :
    ∀ (fs : FS V) (p : String), (fs p).isSome = true →
      ((WebUI.runCacheOps md5hex fs ops) p).isSome = true := by
  induction ops with
  | nil => intro fs p h; exact h
  | cons op ops ih =>
    intro fs p h
    simp only [WebUI.runCacheOps]
    refine ih _ p ?_
    cases op with
    | get _ => exact h
    | set key val =>
      simp only [WebUI.runCacheOp, WebUI.cache_set]
      split <;> simp_all

/-- C4: writing one key never disturbs another key stored at a different
cache file, in both pickle caches, and no sequence of cache calls ever
removes an existing entry. -/
theorem C4_cache_no_eviction {V : Type} (md5hex : String → String)
    (fs : FS V) (k k' : String) (v : V)
    (hweb : WebUI.cache_file md5hex k' ≠ WebUI.cache_file md5hex k)
    (henh : Enhanced.cache_path k' ≠ Enhanced.cache_path k) :
    WebUI.cache_get md5hex (WebUI.cache_set md5hex fs k v) k' =
      WebUI.cache_get md5hex fs k' ∧
    Enhanced.cache_get (Enhanced.cache_set fs k v) k' =
      Enhanced.cache_get fs k' ∧
    ∀ (ops : List (WebUI.CacheOp V)) (p : String),
      (fs p).isSome = true →
      ((WebUI.runCacheOps md5hex fs ops) p).isSome = true := by
  refine ⟨?_, ?_, fun ops p h => runCacheOps_isSome_mono md5hex ops fs p h⟩
  · simp [WebUI.cache_get, WebUI.cache_set, hweb]
  · simp [Enhanced.cache_get, Enhanced.cache_set, henh]

/-- Witness for C4 at two keys with distinct cache files. -/
theorem C4_cache_no_eviction_witness :
    (WebUI.cache_file id "water" ≠ WebUI.cache_file id "parks") ∧
    (Enhanced.cache_path "water" ≠ Enhanced.cache_path "parks") ∧
    (WebUI.cache_get id (WebUI.cache_set id (fun _ => some 0) "parks" 7)
       "water" = WebUI.cache_get id (fun _ => some 0) "water" ∧
     Enhanced.cache_get (Enhanced.cache_set (fun _ => some 0) "parks" 7)
       "water" = Enhanced.cache_get (fun _ => (some 0 : Option Nat)) "water" ∧
     ∀ (ops : List (WebUI.CacheOp Nat)) (p : String),
       ((fun _ => (some 0 : Option Nat)) p).isSome = true →
       ((WebUI.runCacheOps id (fun _ => some 0) ops) p).isSome = true) :=
  ⟨by decide, by decide,
   C4_cache_no_eviction id (fun _ => some 0) "parks" "water" 7
     (by decide) (by decide)⟩

/-- C8: the key sanitisation of the enhanced script's cache is not
injective: a slash and an underscore collapse to the same cache path, so
two distinct keys share one entry. -/
theorem C8_cache_path_collision :
    ("hyderabad/streets" : String) ≠ "hyderabad_streets" ∧
    Enhanced.cache_path "hyderabad/streets" =
      Enhanced.cache_path "hyderabad_streets" ∧
    Enhanced.cache_get
      (Enhanced.cache_set (fun _ => (none : Option Nat)) "hyderabad_streets" 7)
      "hyderabad/streets" = some 7 := by
  refine ⟨by decide, by decide, ?_⟩
  simp [Enhanced.cache_get, Enhanced.cache_set]
  decide

/-- C5: an accepted `/api/generate` request installs exactly one fresh
empty queue under its job id and spawns exactly one worker thread;
`ps_put` enqueues onto an existing job's queue and is a no-op on a missing
job id; `ps_cleanup` removes exactly the entries older than the TTL, whose
default is 900 seconds. -/
theorem C5_thread_per_job_progress_queue {P : Type}
    (req : WebUI.GenerateRequest) (job_id : String) (now : ℚ)
    (st : WebUI.WebServerState P) (r : WebUI.GenerateResult)
    (st' : WebUI.WebServerState P)
    (hgen : WebUI.generate req job_id now st = (r, st'))
    (haccept : r = .accepted job_id) :
    st'.store job_id = some ⟨[], now⟩ ∧
    (∀ id, id ≠ job_id → st'.store id = st.store id) ∧
    st'.threads = st.threads ++ [job_id] ∧
    (∀ (store : WebUI.ProgressStoreState P) (t : ℚ) (id : String) (payload : P),
      store id = none → WebUI.ps_put store t id payload = store) ∧
    (∀ (store : WebUI.ProgressStoreState P) (t : ℚ) (id : String) (payload : P)
        (entry : WebUI.PSEntry P),
      store id = some entry →
      WebUI.ps_put store t id payload id = some ⟨entry.queue ++ [payload], t⟩) ∧
    (∀ (ttl t : ℚ) (store : WebUI.ProgressStoreState P) (id : String)
        (entry : WebUI.PSEntry P),
      store id = some entry →
      WebUI.ps_cleanup ttl t store id =
        if t - entry.updated > ttl then none else some entry) ∧
    WebUI.default_ttl_seconds = 900 := by
  subst haccept
  have hst' : st' =
      ⟨WebUI.ps_create st.store now job_id, st.threads ++ [job_id]⟩ := by
    unfold WebUI.generate at hgen
    rcases hlat : req.lat with _ | lat <;>
      rcases hlon : req.lon with _ | lon <;>
        rcases hdist : req.distance with _ | d <;>
          simp only [hlat, hlon, hdist] at hgen <;>
            split_ifs at hgen <;> simp_all
  subst hst'
  refine ⟨by simp [WebUI.ps_create], ?_, rfl, ?_, ?_, ?_, rfl⟩
  · intro id hid
    simp [WebUI.ps_create, hid]
  · intro store t id payload h
    simp [WebUI.ps_put, h]
  · intro store t id payload entry h
    simp [WebUI.ps_put, h]
  · intro ttl t store id entry h
    simp [WebUI.ps_cleanup, h]

/-- Witness for C5: a valid request accepted with a fresh job id. -/
theorem C5_thread_per_job_progress_queue_witness :
    (WebUI.generate (P := Nat) ⟨"Berlin", some 52, some 13, some 10000, "noir"⟩
       "job-1" 0 ⟨fun _ => none, []⟩ =
       (.accepted "job-1",
        ⟨WebUI.ps_create (fun _ => none) 0 "job-1", [] ++ ["job-1"]⟩)) ∧
    (WebUI.GenerateResult.accepted "job-1" = .accepted "job-1") ∧
    ((WebUI.ps_create (fun _ => (none : Option (WebUI.PSEntry Nat))) 0 "job-1")
       "job-1" = some ⟨[], 0⟩ ∧
     (∀ id, id ≠ "job-1" →
       (WebUI.ps_create (fun _ => (none : Option (WebUI.PSEntry Nat))) 0 "job-1")
         id = (fun _ => none) id) ∧
     ([] ++ ["job-1"] : List String) = [] ++ ["job-1"] ∧
     (∀ (store : WebUI.ProgressStoreState Nat) (t : ℚ) (id : String)
         (payload : Nat),
       store id = none → WebUI.ps_put store t id payload = store) ∧
     (∀ (store : WebUI.ProgressStoreState Nat) (t : ℚ) (id : String)
         (payload : Nat) (entry : WebUI.PSEntry Nat),
       store id = some entry →
       WebUI.ps_put store t id payload id =
         some ⟨entry.queue ++ [payload], t⟩) ∧
     (∀ (ttl t : ℚ) (store : WebUI.ProgressStoreState Nat) (id : String)
         (entry : WebUI.PSEntry Nat),
       store id = some entry →
       WebUI.ps_cleanup ttl t store id =
         if t - entry.updated > ttl then none else some entry) ∧
     WebUI.default_ttl_seconds = 900) :=
  ⟨rfl, rfl,
   C5_thread_per_job_progress_queue
     ⟨"Berlin", some 52, some 13, some 10000, "noir"⟩ "job-1" 0
     ⟨fun _ => none, []⟩ (.accepted "job-1")
     ⟨WebUI.ps_create (fun _ => none) 0 "job-1", [] ++ ["job-1"]⟩ rfl rfl⟩

/-- C9: the backend's `POST /api/generate` rejects unknown themes and
out-of-range distances with a 400 error and no job creation; an accepted
request creates exactly one new job, queued at progress 0. -/
theorem C9_backend_generate_validation (req : Backend.PosterRequest)
    (available_themes : List String) (jobs : Backend.Jobs) (job_id : String) :
    ((req.theme ∉ available_themes ∨ req.distance < 1000 ∨ req.distance > 50000) →
      ∃ err : Backend.HTTPError,
        Backend.generate_poster req available_themes jobs job_id = .error err ∧
        err.status_code = 400) ∧
    (∀ (jobs' : Backend.Jobs) (status : Backend.JobStatus),
      Backend.generate_poster req available_themes jobs job_id =
        .ok (jobs', status) →
      jobs' job_id = some ⟨"queued", "Job queued for processing", 0⟩ ∧
      (∀ id, id ≠ job_id → jobs' id = jobs id) ∧
      status.status = "queued" ∧ status.progress = 0) := by
  constructor
  · intro hbad
    unfold Backend.generate_poster
    rcases Decidable.em (req.theme ∈ available_themes) with hin | hout
    · have hd : req.distance < 1000 ∨ req.distance > 50000 := by tauto
      rw [if_neg (by simpa using hin), if_pos hd]
      exact ⟨_, rfl, rfl⟩
    · rw [if_pos hout]
      exact ⟨_, rfl, rfl⟩
  · intro jobs' status hok
    unfold Backend.generate_poster at hok
    split_ifs at hok with h1 h2
    have hpair := Except.ok.inj hok
    have hj := congrArg Prod.fst hpair
    have hs := congrArg Prod.snd hpair
    simp only [Prod.fst, Prod.snd] at hj hs
    subst hj
    subst hs
    refine ⟨by simp, ?_, rfl, rfl⟩
    intro id hid
    simp [hid]

/-- Witness for C9: a request with an unknown theme is rejected. -/
theorem C9_backend_generate_validation_witness :
    (("missing" : String) ∉ ["noir"] ∨ (5000 : Int) < 1000 ∨
      (5000 : Int) > 50000) ∧
    ∃ err : Backend.HTTPError,
      Backend.generate_poster ⟨"Paris", "France", "missing", 5000⟩ ["noir"]
        (fun _ => none) "job-1" = .error err ∧ err.status_code = 400 :=
  ⟨by decide,
   (C9_backend_generate_validation ⟨"Paris", "France", "missing", 5000⟩
     ["noir"] (fun _ => none) "job-1").1 (by decide)⟩

end MapToPoster
